import Mathlib

/-!
Shallow embedding of the dynamic query/introspection engine in
`src/src/dal/dao-ssh/dao-ssh-mysql.ts` (class `DaoSshMysql`).

Pure fragments of the TypeScript methods are translated into executable Lean
functions; the JavaScript object mutations are made explicit either by
returning the post-state of the mutated object or by threading an explicit
heap.  Missing-or-falsy JavaScript values are modelled with `Option`;
JavaScript truthiness tests are spelled out at each use site.

The SQL `WHERE` clauses that knex accumulates (`andWhere`, `orWhereRaw`,
`andWhereNot`) are modelled syntactically as a list of
(connective, condition) pairs, and their run-time meaning is given by
`evalClauses`, which evaluates the clause list under SQL operator precedence
(`AND` binds tighter than `OR`), exactly as the generated
`WHERE c1 AND c2 OR c3 ...` string is parsed by MySQL.
-/

namespace DaoSshMysql

/-- A JavaScript value stored in a row object (the fragments we need). -/
inductive Value where
  | vStr : String → Value
  | vNum : Int → Value
  | vBool : Bool → Value
  | vNull : Value
deriving DecidableEq

/-- A row object: ordered key/value entries of a JavaScript object. -/
abbrev RowObj := List (String × Value)

/-! ### Pagination resolution (getRowsFromTable, lines 200-208)

```
if (!page || page <= 0) {
  page = Constants.DEFAULT_PAGINATION.page;
  const { list_per_page } = settings;
  if ((list_per_page && list_per_page > 0) && (!perPage || perPage <= 0)) {
    perPage = list_per_page;
  } else {
    perPage = Constants.DEFAULT_PAGINATION.perPage;
  }
}
```
`Constants.DEFAULT_PAGINATION` lives outside `src/`, so its two numeric
fields are passed in as parameters `defaultPage` / `defaultPerPage`. -/

/-- JavaScript test `!x || x <= 0` on a possibly-missing number:
true when the value is absent (`undefined`), `0` (falsy) or `<= 0`. -/
def jsFalsyOrNonpos : Option Int → Bool
  | none => true
  | some v => v ≤ 0

/-- JavaScript test `list_per_page && list_per_page > 0` on a
possibly-missing number: truthy and positive. -/
def lppPositive : Option Int → Bool
  | none => false
  | some l => l != 0 && 0 < l

/-- Lines 200-208 of `getRowsFromTable`: the effective (page, perPage) pair
after the default-resolution block ran.  `none` in the result means the
corresponding variable was left `undefined`. -/
def resolvePagination (defaultPage defaultPerPage : Int)
    (list_per_page page perPage : Option Int) : Option Int × Option Int :=
  if jsFalsyOrNonpos page then
    let page' := some defaultPage
    if lppPositive list_per_page && jsFalsyOrNonpos perPage then
      (page', list_per_page)
    else
      (page', some defaultPerPage)
  else
    (page, perPage)

/-! ### Filter criteria and WHERE-clause construction -/

/-- `FilterCriteriaEnum` from `../../enums`; every member is named by the
switch statements at lines 262-290 and 633-660 of the source. -/
inductive FilterCriteriaEnum where
  | eq : FilterCriteriaEnum
  | startswith : FilterCriteriaEnum
  | endswith : FilterCriteriaEnum
  | gt : FilterCriteriaEnum
  | lt : FilterCriteriaEnum
  | lte : FilterCriteriaEnum
  | gte : FilterCriteriaEnum
  | contains : FilterCriteriaEnum
  | icontains : FilterCriteriaEnum
deriving DecidableEq

/-- One entry of the caller's `filteringFields` array. -/
structure FilterObject where
  field : String
  criteria : FilterCriteriaEnum
  value : String
deriving DecidableEq

/-- An atomic SQL condition as knex compiles it:
`whereEq f v` is `f = v`, `whereLike f p` is `f LIKE p`,
`whereNotLike f p` is `NOT f LIKE p`, the comparison constructors are
`f > v` / `f < v` / `f <= v` / `f >= v`, and `castCharEq f v` is the raw
fragment `CAST (f AS CHAR (255)) = v` from `orWhereRaw`. -/
inductive Cond where
  | whereEq : String → String → Cond
  | whereLike : String → String → Cond
  | whereNotLike : String → String → Cond
  | whereGt : String → String → Cond
  | whereLt : String → String → Cond
  | whereLte : String → String → Cond
  | whereGte : String → String → Cond
  | castCharEq : String → String → Cond
deriving DecidableEq

/-- The boolean connective knex attaches to an appended WHERE clause:
`andWhere`/`andWhereNot` append with `wAnd`, `orWhereRaw` with `wOr`. -/
inductive WhereConn where
  | wAnd : WhereConn
  | wOr : WhereConn
deriving DecidableEq

/-- One clause of the accumulated knex WHERE list. -/
abbrev WhereClause := WhereConn × Cond

/-- Tail of SQL-precedence evaluation: `acc` holds the value of the current
`AND`-run; an `AND` clause extends the run, an `OR` clause closes it. -/
def evalClausesGo (env : Cond → Bool) (acc : Bool) : List WhereClause → Bool
  | [] => acc
  | (WhereConn.wAnd, c) :: rest => evalClausesGo env (acc && env c) rest
  | (WhereConn.wOr, c) :: rest => acc || evalClausesGo env (env c) rest

/-- Meaning of a knex WHERE-clause list under an atomic-condition valuation
`env`, with SQL precedence (AND binds tighter than OR); the connective of
the first clause is ignored, an empty list means no WHERE clause (true).
This is how MySQL parses the generated `WHERE c1 AND c2 OR c3 ...`. -/
def evalClauses (env : Cond → Bool) : List WhereClause → Bool
  | [] => true
  | (_, c) :: rest => evalClausesGo env (env c) rest

/-- One iteration of the filter loop (lines 260-291 and 631-661): the switch
on `criteria` appends exactly one `andWhere`-style clause to the builder
(an unknown criterion would append nothing, but the enum is closed). -/
def addFilterClause (builder : List WhereClause) (f : FilterObject) : List WhereClause :=
  match f.criteria with
  | FilterCriteriaEnum.eq =>
      builder ++ [(WhereConn.wAnd, Cond.whereEq f.field f.value)]
  | FilterCriteriaEnum.startswith =>
      builder ++ [(WhereConn.wAnd, Cond.whereLike f.field (f.value ++ "%"))]
  | FilterCriteriaEnum.endswith =>
      builder ++ [(WhereConn.wAnd, Cond.whereLike f.field ("%" ++ f.value))]
  | FilterCriteriaEnum.gt =>
      builder ++ [(WhereConn.wAnd, Cond.whereGt f.field f.value)]
  | FilterCriteriaEnum.lt =>
      builder ++ [(WhereConn.wAnd, Cond.whereLt f.field f.value)]
  | FilterCriteriaEnum.lte =>
      builder ++ [(WhereConn.wAnd, Cond.whereLte f.field f.value)]
  | FilterCriteriaEnum.gte =>
      builder ++ [(WhereConn.wAnd, Cond.whereGte f.field f.value)]
  | FilterCriteriaEnum.contains =>
      builder ++ [(WhereConn.wAnd, Cond.whereLike f.field ("%" ++ f.value ++ "%"))]
  | FilterCriteriaEnum.icontains =>
      builder ++ [(WhereConn.wAnd, Cond.whereNotLike f.field ("%" ++ f.value ++ "%"))]

/-- The filter `modify` block: `if (filteringFields && filteringFields.length > 0)`
then run the loop over the entries (a missing array adds nothing, like `[]`). -/
def applyFilters (builder : List WhereClause) (filteringFields : List FilterObject) :
    List WhereClause :=
  if filteringFields.length > 0 then
    filteringFields.foldl addFilterClause builder
  else
    builder

/-- The search `modify` block (lines 250-255 and 667-672):
`if (search_fields && searchedFieldValue && search_fields.length > 0)` then
for each search field append `orWhereRaw(CAST (?? AS CHAR (255))=?, [field, searchedFieldValue])`.
`searchedFieldValue` is truthy iff it is a non-empty string. -/
def applySearch (builder : List WhereClause) (search_fields : Option (List String))
    (searchedFieldValue : String) : List WhereClause :=
  match search_fields with
  | some sf =>
      if searchedFieldValue != "" && sf.length > 0 then
        sf.foldl (fun b field => b ++ [(WhereConn.wOr, Cond.castCharEq field searchedFieldValue)]) builder
      else
        builder
  | none => builder

/-- WHERE-clause list of the paginated data select in `getRowsFromTable`
(lines 244-293): the search `modify` runs first, then the filter `modify`. -/
def dataWhereClauses (search_fields : Option (List String)) (searchedFieldValue : String)
    (filteringFields : List FilterObject) : List WhereClause :=
  applyFilters (applySearch [] search_fields searchedFieldValue) filteringFields

/-- WHERE-clause list of the count query in `getRowsCount`
(lines 627-675): the filter `modify` runs first, then the search `modify`. -/
def countWhereClauses (search_fields : Option (List String)) (searchedFieldValue : String)
    (filteringFields : List FilterObject) : List WhereClause :=
  applySearch (applyFilters [] filteringFields) search_fields searchedFieldValue

/-- The single comparison each criterion is specified to map to
(spec, section 4.4); used to compare the built clause lists against the
specified mapping. -/
def filterCond (f : FilterObject) : Cond :=
  match f.criteria with
  | FilterCriteriaEnum.eq => Cond.whereEq f.field f.value
  | FilterCriteriaEnum.startswith => Cond.whereLike f.field (f.value ++ "%")
  | FilterCriteriaEnum.endswith => Cond.whereLike f.field ("%" ++ f.value)
  | FilterCriteriaEnum.gt => Cond.whereGt f.field f.value
  | FilterCriteriaEnum.lt => Cond.whereLt f.field f.value
  | FilterCriteriaEnum.lte => Cond.whereLte f.field f.value
  | FilterCriteriaEnum.gte => Cond.whereGte f.field f.value
  | FilterCriteriaEnum.contains => Cond.whereLike f.field ("%" ++ f.value ++ "%")
  | FilterCriteriaEnum.icontains => Cond.whereNotLike f.field ("%" ++ f.value ++ "%")

/-- The search/filter combination as the spec words it (section 4.4): the
search disjunction is one parenthesized OR-group, AND-combined with the
conjunction of all filter comparisons. -/
def specSearchFilterPredicate (env : Cond → Bool) (search_fields : List String)
    (searchedFieldValue : String) (filteringFields : List FilterObject) : Bool :=
  (search_fields.any (fun f => env (Cond.castCharEq f searchedFieldValue))) &&
    (filteringFields.all (fun f => env (filterCond f)))

/-- The ordering `modify` block (lines 294-298):
`if ((settings.ordering_field, settings.ordering))` — a JavaScript comma
expression, whose value is `settings.ordering` alone — then
`builder.orderBy(settings.ordering_field, settings.ordering)`.
Returns the ORDER BY clause added (field, direction), or `none`. -/
def applyOrdering (ordering_field ordering : Option String) :
    Option (Option String × Option String) :=
  if (match ordering with
      | some s => s != ""
      | none => false) then
    some (ordering_field, ordering)
  else
    none

/-! ### Connection caching (configureKnex, lines 98-120; getMySqlDriver, lines 584-605) -/

/-- The `connectionConfig` object rebuilt from `this.connection` before every
operation: `{host, username, password, database, port, type, ssl, cert}`. -/
structure ConnConfig where
  host : String
  username : String
  password : String
  database : String
  port : Int
  type : String
  ssl : Bool
  cert : String
deriving DecidableEq

/-- A handle stored in the cache: either the ssh-tunneled MySQL driver
returned by `getSshMySqlClient`, or a knex query-engine handle built by
`knex({...})`; the `Nat` tags distinct live objects. -/
inductive Handle where
  | sshDriver : Nat → Handle
  | knexHandle : Nat → Handle
deriving DecidableEq

/-- Modelled from the spec: the `Cacher` helper (`../../helpers/cache/cacher`,
outside `src/`).  Per section 3 of the spec, the cached resource "holds the
tunneled driver handle and, independently, a built query-engine handle", so
the cacher is two independent maps keyed by structural equality of the
connection descriptor, each holding at most one entry per descriptor. -/
structure CacherState where
  driverCache : List (ConnConfig × Handle)
  knexCache : List (ConnConfig × Handle)
deriving DecidableEq

/-- The cacher with no stored entries. -/
def emptyCacher : CacherState := ⟨[], []⟩

/-- Modelled from the spec: `Cacher.getDriverCache(connection)` — look up the
driver map by structural equality of the descriptor. -/
def getDriverCache (s : CacherState) (c : ConnConfig) : Option Handle :=
  (s.driverCache.find? (fun p => p.1 == c)).map (fun p => p.2)

/-- Modelled from the spec: `Cacher.setDriverCache(connection, handle)` —
store into the driver map, keeping at most one entry per descriptor. -/
def setDriverCache (s : CacherState) (c : ConnConfig) (h : Handle) : CacherState :=
  ⟨(c, h) :: s.driverCache.filter (fun p => p.1 != c), s.knexCache⟩

/-- Modelled from the spec: `Cacher.getCachedKnex(connectionConfig)` — look up
the independent query-engine map by structural equality of the descriptor. -/
def getCachedKnex (s : CacherState) (c : ConnConfig) : Option Handle :=
  (s.knexCache.find? (fun p => p.1 == c)).map (fun p => p.2)

/-- `configureKnex` (lines 98-120): return the cached knex handle when
present; otherwise build a new knex handle (`fresh` tags the new object) and
store it — the source calls `Cacher.setDriverCache(connectionConfig, newKnex)`,
writing the new knex handle into the DRIVER cache. -/
def configureKnex (s : CacherState) (connectionConfig : ConnConfig) (fresh : Nat) :
    CacherState × Handle :=
  match getCachedKnex s connectionConfig with
  | some cachedKnex => (s, cachedKnex)
  | none =>
      let newKnex := Handle.knexHandle fresh
      (setDriverCache s connectionConfig newKnex, newKnex)

/-- `getMySqlDriver` (lines 584-605), successful-tunnel path: return the
cached driver when present; otherwise obtain a fresh ssh driver from
`getSshMySqlClient` (`fresh` tags the new object) and store it with
`Cacher.setDriverCache`. -/
def getMySqlDriver (s : CacherState) (connection : ConnConfig) (fresh : Nat) :
    CacherState × Handle :=
  match getDriverCache s connection with
  | some cachedDriver => (s, cachedDriver)
  | none =>
      let mySqlDriver := Handle.sshDriver fresh
      (setDriverCache s connection mySqlDriver, mySqlDriver)

/-! ### Schema introspection and normalization (getTableStructure, lines 422-485) -/

/-- A raw catalog row selected from `information_schema.columns`
(lines 437-452), after `objectKeysToLowercase` — captured here by the typed
field names already being lowercase. -/
structure RawStructureEl where
  column_name : String
  column_default : Option String
  data_type : String
  column_type : String
  is_nullable : String
  extra : String
  character_maximum_length : Option Int
deriving DecidableEq

/-- A normalized structure element as produced by the loop at lines 458-483;
`renameObjectKeyName(element, 'is_nullable', 'allow_null')` is captured by
the field being called `allow_null` and holding the computed boolean. -/
structure StructureEl where
  column_name : String
  column_default : Option String
  data_type : String
  column_type : String
  allow_null : Bool
  extra : String
  character_maximum_length : Option Int
  data_type_params : Option (List String)
deriving DecidableEq

/-- The single-quote character `'` (ASCII 39) as a string. -/
def sQuote : String := String.mk [Char.ofNat 39]

/-- The separator the source splits enum/set parameter lists on:
the three-character string quote, comma, quote. -/
def quoteCommaQuote : String := sQuote ++ "," ++ sQuote

/-- JavaScript `s.slice(start, stop)` for the non-negative uses in the
source (`slice(6, length-2)` and `slice(5, length-2)`); for those argument
shapes the clamping of `Nat` subtraction agrees with JavaScript `slice`. -/
def jsSlice (s : String) (start stop : Nat) : String :=
  (s.drop start).take (stop - start)

/-- Model of the JavaScript builtin `String.prototype.split` for a
non-empty separator (the source only splits on `','`): split at every
non-overlapping occurrence of `sep`, keeping empty pieces.  Fuel-based so
it is structurally recursive; the fuel is the input length, which always
suffices. -/
def jsSplitFuel (sep : List Char) : Nat → List Char → List Char → List String
  | 0, rest, acc => [String.mk (acc.reverse ++ rest)]
  | _+1, [], acc => [String.mk acc.reverse]
  | fuel+1, c :: rest, acc =>
      if sep ≠ [] ∧ sep.isPrefixOf (c :: rest) then
        String.mk acc.reverse :: jsSplitFuel sep fuel ((c :: rest).drop sep.length) []
      else
        jsSplitFuel sep fuel rest (acc ++ [c])

/-- JavaScript `s.split(sep)` for non-empty `sep`. -/
def jsSplit (s sep : String) : List String :=
  jsSplitFuel sep.toList s.toList.length s.toList []

/-- Model of the JavaScript builtin `String.prototype.toLowerCase` over the
ASCII identifiers the catalog returns. -/
def jsToLower (s : String) : String := String.mk (s.toList.map Char.toLower)

/-- Modelled from the spec: the `getNumbersFromString` helper
(`../../helpers`, outside `src/`) — "extract first run of digits from a
string" (spec section 6); no digits yields nothing. -/
def getNumbersFromString (s : String) : Option Nat :=
  let ds := (s.toList.dropWhile (fun c => !c.isDigit)).takeWhile (fun c => c.isDigit)
  match ds with
  | [] => none
  | _ => some (ds.foldl (fun a c => a * 10 + (c.toNat - 48)) 0)

/-- JavaScript truthiness of a possibly-missing number: absent, `0` are falsy. -/
def jsTruthyNum : Option Int → Bool
  | none => false
  | some v => v != 0

/-- The second ternary of lines 478-482:
`getNumbersFromString(element.column_type) ? getNumbersFromString(element.column_type) : null`
— the parsed digit run when truthy (present and non-zero), else null. -/
def fallbackLength (column_type : String) : Option Int :=
  match getNumbersFromString column_type with
  | some n => if n != 0 then some (Int.ofNat n) else none
  | none => none

/-- Lines 459-461: `extra === 'auto_increment'` rewrites `column_default`
to the sentinel string. -/
def normalizedDefault (extra : String) (column_default : Option String) : Option String :=
  if extra == "auto_increment" then some "auto_increment" else column_default

/-- Lines 464-477: for `enum`/`set` data types, carve the parameter list out
of `column_type` between the fixed offsets (`enum(` is 6 characters, `set(`
is 5; the trailing `')` is 2) and split on the literal `','`. -/
def dataTypeParams (data_type column_type : String) : Option (List String) :=
  if data_type == "enum" then
    some (jsSplit (jsSlice column_type 6 (column_type.length - 2)) quoteCommaQuote)
  else if data_type == "set" then
    some (jsSplit (jsSlice column_type 5 (column_type.length - 2)) quoteCommaQuote)
  else
    none

/-- Lines 478-482: keep a truthy catalog length, else fall back to the
first digit run of `column_type`, else null. -/
def normalizedMaxLength (cml : Option Int) (column_type : String) : Option Int :=
  if jsTruthyNum cml then cml else fallbackLength column_type

/-- The normalization loop body (lines 458-483) applied to one raw catalog
row: the auto-increment sentinel rewrite, the `is_nullable` → `allow_null`
boolean (the key rename is captured by the target field name), enum/set
parameter extraction by fixed offsets, and the `character_maximum_length`
fallback chain. -/
def normalizeStructureElement (e : RawStructureEl) : StructureEl :=
  ⟨e.column_name, normalizedDefault e.extra e.column_default, e.data_type, e.column_type,
    e.is_nullable == "YES", e.extra,
    normalizedMaxLength e.character_maximum_length e.column_type,
    dataTypeParams e.data_type e.column_type⟩

/-! ### Row writing (addRowInTable, lines 34-96; updateRowInTable, lines 487-525) -/

/-- One element of `getTablePrimaryColumns`' result (lines 385-420):
lowercased `COLUMN_NAME` / `DATA_TYPE`. -/
structure PrimaryCol where
  column_name : String
  data_type : String
deriving DecidableEq

/-- Modelled from the spec: the `checkFieldAutoincrement` helper
(`../../helpers`, outside `src/`) — "detect whether a column-default value
denotes auto-increment" (spec section 6), the sentinel being the string
`"auto_increment"` that `getTableStructure` writes into `column_default`. -/
def checkFieldAutoincrement (column_default : Option String) : Bool :=
  column_default == some "auto_increment"

/-- Lines 36-42: names of the columns whose `data_type` is `json`. -/
def jsonColumnNames (tableStructure : List StructureEl) : List String :=
  (tableStructure.filter (fun structEl => jsToLower structEl.data_type == "json")).map
    (fun structEl => structEl.column_name)

/-- The `for (const key in row)` loop (lines 43-47 and 500-504): every field
named in `cols` has its value replaced by `JSON.stringify` of the old value
(`stringify` models that external builtin). -/
def serializeRowJsonFields (stringify : Value → String) (cols : List String)
    (row : RowObj) : RowObj :=
  row.map (fun kv => if cols.contains kv.1 then (kv.1, Value.vStr (stringify kv.2)) else kv)

/-- JavaScript property read `row[key]`: `none` models `undefined`. -/
def lookupField (row : RowObj) (key : String) : Option Value :=
  (row.find? (fun kv => kv.1 == key)).map (fun kv => kv.2)

/-- A statement issued against the driver by the row writer. -/
inductive DbOp where
  | insert : String → RowObj → DbOp
  | selectLastInsertId : String → DbOp
  | update : String → RowObj → RowObj → DbOp
deriving DecidableEq

/-- `addRowInTable` from line 48 on, after the JSON-serialization pass: the
row writer's control flow over the primary-key metadata.  `Except.error`
models a thrown JavaScript `TypeError`; on success the result carries the
issued statements and the structured return value
(`none` = the method returned `undefined`).  `lastInsertId` is the value the
follow-up `LAST_INSERT_ID()` query would report. -/
def addRowInTableRest (lastInsertId : Value) (tableName : String) (row : RowObj)
    (tableStructure : List StructureEl) (primaryColumns : List PrimaryCol) :
    Except String (List DbOp × Option (String × Option Value)) :=
  match primaryColumns.head? with
  | none =>
      Except.error "TypeError: Cannot read properties of undefined (reading column_name)"
  | some primaryKey =>
      let primaryKeyIndexInStructure :=
        (tableStructure.map (fun e => e.column_name)).indexOf primaryKey.column_name
      if primaryColumns.length > 0 then
        match tableStructure[primaryKeyIndexInStructure]? with
        | none =>
            Except.error "TypeError: Cannot read properties of undefined (reading column_default)"
        | some primaryKeyStructure =>
            if !(checkFieldAutoincrement primaryKeyStructure.column_default) then
              Except.ok ([DbOp.insert tableName row],
                some (primaryKey.column_name, lookupField row primaryKey.column_name))
            else
              Except.ok ([DbOp.insert tableName row, DbOp.selectLastInsertId tableName],
                some (primaryKey.column_name, some lastInsertId))
      else
        Except.ok ([DbOp.insert tableName row], none)

/-- `addRowInTable` (lines 34-96) on a row passed by value: serialize the
JSON-typed fields, then run the primary-key logic. -/
def addRowInTable (stringify : Value → String) (lastInsertId : Value)
    (tableName : String) (row : RowObj) (tableStructure : List StructureEl)
    (primaryColumns : List PrimaryCol) :
    Except String (List DbOp × Option (String × Option Value)) :=
  addRowInTableRest lastInsertId tableName
    (serializeRowJsonFields stringify (jsonColumnNames tableStructure) row)
    tableStructure primaryColumns

/-- A heap of row objects, indexed by reference; models JavaScript object
identity so in-place mutation of a caller's argument is observable. -/
abbrev Heap := Nat → RowObj

/-- Update the object stored at reference `r`. -/
def writeHeap (h : Heap) (r : Nat) (v : RowObj) : Heap :=
  fun x => if x = r then v else h x

/-- `addRowInTable` operating on the caller's row object through the heap:
the serialization loop at lines 43-47 assigns through `row[key]`, mutating
the caller's object before anything can throw. -/
def addRowInTableH (stringify : Value → String) (lastInsertId : Value)
    (tableName : String) (h : Heap) (rowRef : Nat) (tableStructure : List StructureEl)
    (primaryColumns : List PrimaryCol) :
    Heap × Except String (List DbOp × Option (String × Option Value)) :=
  let row' := serializeRowJsonFields stringify (jsonColumnNames tableStructure) (h rowRef)
  (writeHeap h rowRef row',
    addRowInTableRest lastInsertId tableName row' tableStructure primaryColumns)

/-- `updateRowInTable` (lines 487-525) through the heap: same JSON
serialization loop mutating the caller's row (lines 500-504), then one
update statement filtered by the primary-key object. -/
def updateRowInTableH (stringify : Value → String) (tableName : String) (h : Heap)
    (rowRef : Nat) (primaryKey : RowObj) (tableStructure : List StructureEl) :
    Heap × List DbOp :=
  let row' := serializeRowJsonFields stringify (jsonColumnNames tableStructure) (h rowRef)
  (writeHeap h rowRef row', [DbOp.update tableName row' primaryKey])

/-! ### Table settings and projection (findAvaliableFields, lines 552-582) -/

/-- The caller-supplied `ITableSettings` object; `none` models an absent key. -/
structure TableSettingsObj where
  list_fields : Option (List String)
  excluded_fields : Option (List String)
  search_fields : Option (List String)
  ordering_field : Option String
  ordering : Option String
  list_per_page : Option Int
deriving DecidableEq

/-- Modelled from the spec: the `isObjectEmpty` helper (`../../helpers`,
outside `src/`) — true iff the settings object has no keys. -/
def isObjectEmpty (s : TableSettingsObj) : Bool :=
  s.list_fields == none && s.excluded_fields == none && s.search_fields == none &&
    s.ordering_field == none && s.ordering == none && s.list_per_page == none

/-- The exclusion loop (lines 573-580): for each excluded field, look up its
first index and `splice` it out when present — i.e. erase the first
occurrence. -/
def removeExcluded (excludedFields : Option (List String)) (available : List String) :
    List String :=
  match excludedFields with
  | some ex =>
      if ex.length > 0 then ex.foldl (fun acc field => acc.erase field) available
      else available
  | none => available

/-- `findAvaliableFields` (lines 552-582).  Returns the projected field list
together with the settings object as the caller sees it afterwards: when
`list_fields` is non-empty, `availableFields` ALIASES the caller's
`settings.list_fields` array, so the `splice` calls of the exclusion loop
mutate it — captured by the returned settings carrying the spliced list. -/
def findAvaliableFields (tableStructureNames : List String)
    (settings : TableSettingsObj) : List String × TableSettingsObj :=
  if isObjectEmpty settings then
    (tableStructureNames, settings)
  else
    let excludedFields := settings.excluded_fields
    match settings.list_fields with
    | some lf =>
        if lf.length > 0 then
          let available := removeExcluded excludedFields lf
          (available,
            ⟨some available, settings.excluded_fields, settings.search_fields,
              settings.ordering_field, settings.ordering, settings.list_per_page⟩)
        else
          (removeExcluded excludedFields tableStructureNames, settings)
    | none =>
        (removeExcluded excludedFields tableStructureNames, settings)

/-! ### Concrete sample inputs used by closed theorems and witnesses -/

/-- A sample connection descriptor. -/
def sampleConnConfig : ConnConfig :=
  ⟨("localhost"), ("root"), ("pwd"), ("testdb"), 3306, ("mysql"), false, ("")⟩

/-- The catalog `column_type` string `enum('a','b','c')`. -/
def enumAbcType : String :=
  "enum(" ++ sQuote ++ "a" ++ sQuote ++ "," ++ sQuote ++ "b" ++ sQuote ++ "," ++
    sQuote ++ "c" ++ sQuote ++ ")"

/-- The catalog `column_type` string `set('a','b')`. -/
def setAbType : String :=
  "set(" ++ sQuote ++ "a" ++ sQuote ++ "," ++ sQuote ++ "b" ++ sQuote ++ ")"

/-- Sample settings: `{list_fields: ["a","b"], excluded_fields: ["b"]}`. -/
def sampleSettings : TableSettingsObj :=
  ⟨some [("a"), ("b")], some [("b")], none, none, none, none⟩

/-- A one-column table structure whose primary key is auto-increment. -/
def autoIncStructure : List StructureEl :=
  [⟨("id"), some ("auto_increment"), ("int"), ("int(11)"), false, ("auto_increment"),
      some 11, none⟩]

/-- A one-column table structure with a caller-supplied (non-auto) key. -/
def plainKeyStructure : List StructureEl :=
  [⟨("id"), none, ("varchar"), ("varchar(45)"), false, (""), some 45, none⟩]

/-- A sample valuation of atomic conditions: true exactly on the search
condition `CAST (a AS CHAR (255)) = x`; models a row with `a = "x"` and
with `b` different from `5`. -/
def envSearchA : Cond → Bool := fun c => c == Cond.castCharEq ("a") ("x")

/-- A sample valuation of atomic conditions: true exactly on the filter
condition `b = 5`; models a row with `b = 5` whose search fields differ
from the search term. -/
def envFilterB : Cond → Bool := fun c => c == Cond.whereEq ("b") ("5")

/-- The sample filter list `[{field: "b", criteria: eq, value: "5"}]`. -/
def filterB5 : List FilterObject := [⟨("b"), FilterCriteriaEnum.eq, ("5")⟩]

/-- A table structure with one column `j` of data type `json`. -/
def jsonColStructure : List StructureEl :=
  [⟨("j"), none, ("json"), ("json"), true, (""), none, none⟩]

/-! ### Helper lemmas -/

/-- Appending one element per iteration is the same as appending the map. -/
theorem foldlAppend_eq_map {α : Type} (g : α → WhereClause) (xs : List α) :
    ∀ b : List WhereClause, xs.foldl (fun acc x => acc ++ [g x]) b = b ++ xs.map g := by
  induction xs with
  | nil => intro b; simp
  | cons x xs ih =>
      intro b
      simp only [List.foldl_cons, List.map_cons, ih, List.append_assoc, List.singleton_append]

/-- Each filter iteration appends exactly the one clause `filterCond` gives. -/
theorem addFilterClause_eq (b : List WhereClause) (f : FilterObject) :
    addFilterClause b f = b ++ [(WhereConn.wAnd, filterCond f)] := by
  rcases f with ⟨field, c, value⟩
  cases c <;> rfl

/-- The filter fold appends the AND-connected image of `filterCond`. -/
theorem foldl_addFilterClause (xs : List FilterObject) :
    ∀ b : List WhereClause,
      xs.foldl addFilterClause b = b ++ xs.map (fun f => (WhereConn.wAnd, filterCond f)) := by
  induction xs with
  | nil => intro b; simp
  | cons x xs ih =>
      intro b
      rw [List.foldl_cons, addFilterClause_eq, ih]
      simp

/-- The filter `modify` block appends one AND-clause per filter entry. -/
theorem applyFilters_eq_map (b : List WhereClause) (fs : List FilterObject) :
    applyFilters b fs = b ++ fs.map (fun f => (WhereConn.wAnd, filterCond f)) := by
  cases fs with
  | nil => simp [applyFilters]
  | cons f fs =>
      unfold applyFilters
      rw [if_pos (by simp)]
      exact foldl_addFilterClause _ _

/-- The search `modify` block, when active, appends one OR-clause with the
exact CHAR-cast equality per search field. -/
theorem applySearch_eq_map (b : List WhereClause) (sf : List String) (v : String)
    (hv : v ≠ "") (hsf : sf ≠ []) :
    applySearch b (some sf) v =
      b ++ sf.map (fun field => (WhereConn.wOr, Cond.castCharEq field v)) := by
  have hcond : (v != "" && decide (sf.length > 0)) = true := by
    simp [hv, List.length_pos, hsf]
  simp only [applySearch, hcond, if_true]
  exact foldlAppend_eq_map _ sf b

/-- Evaluating a purely AND-connected clause list conjoins all conditions. -/
theorem evalClausesGo_and_map {α : Type} (env : Cond → Bool) (g : α → Cond) (xs : List α) :
    ∀ acc : Bool, evalClausesGo env acc (xs.map (fun x => (WhereConn.wAnd, g x))) =
      (acc && xs.all (fun x => env (g x))) := by
  induction xs with
  | nil => intro acc; simp [evalClausesGo]
  | cons x xs ih => intro acc; simp [evalClausesGo, ih, Bool.and_assoc]

/-- Evaluating an OR-chain over `sfl ++ [lastF]` followed by an AND-chain:
under SQL precedence only the last OR-clause groups with the AND-run. -/
theorem evalClausesGo_search_filters (env : Cond → Bool) (v : String) (fs : List FilterObject) :
    ∀ (sfl : List String) (lastF : String) (acc : Bool),
      evalClausesGo env acc
          (sfl.map (fun f => (WhereConn.wOr, Cond.castCharEq f v)) ++
            (WhereConn.wOr, Cond.castCharEq lastF v) ::
              fs.map (fun f => (WhereConn.wAnd, filterCond f))) =
        (acc || (sfl.any (fun f => env (Cond.castCharEq f v)) ||
          (env (Cond.castCharEq lastF v) && fs.all (fun f => env (filterCond f))))) := by
  intro sfl
  induction sfl with
  | nil =>
      intro lastF acc
      simp [evalClausesGo, evalClausesGo_and_map]
  | cons x sfl ih =>
      intro lastF acc
      simp [evalClausesGo, ih, Bool.or_assoc]

/-- Top-level form of `evalClausesGo_search_filters`. -/
theorem evalClauses_search_filters (env : Cond → Bool) (v : String) (fs : List FilterObject)
    (sfl : List String) (lastF : String) :
    evalClauses env
        ((sfl ++ [lastF]).map (fun f => (WhereConn.wOr, Cond.castCharEq f v)) ++
          fs.map (fun f => (WhereConn.wAnd, filterCond f))) =
      (sfl.any (fun f => env (Cond.castCharEq f v)) ||
        (env (Cond.castCharEq lastF v) && fs.all (fun f => env (filterCond f)))) := by
  cases sfl with
  | nil => simp [evalClauses, evalClausesGo_and_map]
  | cons x sfl => simp [evalClauses, evalClausesGo_search_filters, Bool.or_assoc]

/-- `jsFalsyOrNonpos` characterized propositionally. -/
theorem jsFalsyOrNonpos_true_iff (x : Option Int) :
    jsFalsyOrNonpos x = true ↔ (x = none ∨ ∃ p : Int, x = some p ∧ p ≤ 0) := by
  cases x <;> simp [jsFalsyOrNonpos]

/-- The JavaScript test `list_per_page && list_per_page > 0` characterized
propositionally. -/
theorem lppCond_true_iff (lpp : Option Int) :
    lppPositive lpp = true ↔ (∃ l : Int, lpp = some l ∧ 0 < l) := by
  cases lpp with
  | none => simp [lppPositive]
  | some l =>
      simp [lppPositive]
      omega

/-! ### Claim C1 -/

/-- Claim C1, counterexample: with a valid supplied page (`page = 2`), a
positive `settings.list_per_page = 10` and no perPage override, the claim
says perPage resolves to `list_per_page`; the code leaves perPage
undefined, because the whole perPage resolution sits inside the
`if (!page || page <= 0)` branch. -/
theorem resolvePagination_counterexample :
    (resolvePagination 1 20 (some 10) (some 2) none).2 ≠ some 10 := by decide

/-- Claim C1 (amended): the pagination defaults of `getRowsFromTable`
resolve as follows — when the supplied page is valid (present and `> 0`),
both page and perPage pass through unchanged (no perPage resolution
happens); only when page is missing or `≤ 0` is page reset to the default
and perPage resolved to `settings.list_per_page` when that is positive and
no positive perPage override was given, otherwise to the fixed default. -/
theorem resolvePagination_amended (dP dPP : Int) (lpp page perPage : Option Int) :
    (∀ p : Int, page = some p → 0 < p →
      resolvePagination dP dPP lpp page perPage = (page, perPage)) ∧
    ((page = none ∨ ∃ p : Int, page = some p ∧ p ≤ 0) →
      ((∃ l : Int, lpp = some l ∧ 0 < l) ∧
          (perPage = none ∨ ∃ q : Int, perPage = some q ∧ q ≤ 0) →
        resolvePagination dP dPP lpp page perPage = (some dP, lpp))) ∧
    ((page = none ∨ ∃ p : Int, page = some p ∧ p ≤ 0) →
      ¬((∃ l : Int, lpp = some l ∧ 0 < l) ∧
          (perPage = none ∨ ∃ q : Int, perPage = some q ∧ q ≤ 0)) →
      resolvePagination dP dPP lpp page perPage = (some dP, some dPP)) := by
  refine ⟨?_, ?_, ?_⟩
  · intro p hp hpos
    have h0 : jsFalsyOrNonpos page = false := by
      rw [hp]
      simp [jsFalsyOrNonpos]
      omega
    simp [resolvePagination, h0]
  · intro hinv ⟨⟨l, hl, hlpos⟩, hpp⟩
    have h0 : jsFalsyOrNonpos page = true := (jsFalsyOrNonpos_true_iff page).mpr hinv
    have h1 : lppPositive lpp = true := (lppCond_true_iff lpp).mpr ⟨l, hl, hlpos⟩
    have h2 : jsFalsyOrNonpos perPage = true := (jsFalsyOrNonpos_true_iff perPage).mpr hpp
    simp [resolvePagination, h0, h1, h2]
  · intro hinv hneg
    have h0 : jsFalsyOrNonpos page = true := (jsFalsyOrNonpos_true_iff page).mpr hinv
    have h4 : (lppPositive lpp && jsFalsyOrNonpos perPage) = false := by
      cases hA : lppPositive lpp with
      | false => rfl
      | true =>
          cases hB : jsFalsyOrNonpos perPage with
          | false => rfl
          | true =>
              exact absurd ⟨(lppCond_true_iff lpp).mp hA, (jsFalsyOrNonpos_true_iff perPage).mp hB⟩ hneg
    simp [resolvePagination, h0, h4]

/-- Claim C1, witness for the amended theorem: `page = 0` is reset to the
default page `1` and perPage adopts the positive `list_per_page = 7`. -/
theorem resolvePagination_amended_witness :
    resolvePagination 1 20 (some 7) (some 0) none = (some 1, some 7) :=
  (resolvePagination_amended 1 20 (some 7) (some 0) none).2.1
    (Or.inr ⟨0, rfl, le_refl 0⟩) ⟨⟨7, rfl, by decide⟩, Or.inl rfl⟩

/-! ### Claim C2 -/

/-- Claim C2: on a one-row table whose row satisfies the filter `b = 5` but
not the search condition on field `a`, the count query of `getRowsCount`
(filters then search: `(b = 5) OR CAST(a)=x`) counts 1 row, while the data
select of `getRowsFromTable` (search then filters:
`CAST(a)=x AND b = 5` once SQL precedence groups the clauses) selects 0
rows — so the reported pagination total differs from the selected row set,
refuting the claimed predicate equality. -/
theorem count_data_predicate_divergence :
    (([envFilterB] : List (Cond → Bool)).filter
        (fun r => evalClauses r (countWhereClauses (some [("a")]) ("x") filterB5))).length = 1 ∧
    (([envFilterB] : List (Cond → Bool)).filter
        (fun r => evalClauses r (dataWhereClauses (some [("a")]) ("x") filterB5))).length = 0 := by
  constructor <;> rfl

/-! ### Claim C3 -/

/-- Claim C3: every entry of the filter list is compiled to exactly one
comparison clause by the mapping eq→`=`, startswith→`LIKE value%`,
endswith→`LIKE %value`, contains→`LIKE %value%`, gt/lt/gte/lte→the
corresponding comparison, icontains→`NOT LIKE %value%` (`filterCond`), each
attached with the AND connective, and the resulting clause list evaluates
to the conjunction of all the compiled comparisons. -/
theorem filters_combined_with_and (fs : List FilterObject) (env : Cond → Bool) :
    applyFilters [] fs = fs.map (fun f => (WhereConn.wAnd, filterCond f)) ∧
    evalClauses env (applyFilters [] fs) = fs.all (fun f => env (filterCond f)) := by
  have h := applyFilters_eq_map [] fs
  simp only [List.nil_append] at h
  refine ⟨h, ?_⟩
  rw [h]
  cases fs with
  | nil => rfl
  | cons f fs => simp [evalClauses, evalClausesGo_and_map]

/-! ### Claim C4 -/

/-- Claim C4: the ordering guard is the JavaScript comma expression
`(settings.ordering_field, settings.ordering)`, which evaluates to
`settings.ordering` alone — so an ORDER BY clause IS added when
`ordering_field` is absent but `ordering` is present (refuting "no
ordering clause is added when either is absent"), while a present
`ordering_field` with an absent `ordering` adds none. -/
theorem ordering_applied_without_ordering_field :
    applyOrdering none (some ("asc")) = some (none, some ("asc")) ∧
    applyOrdering (some ("id")) none = none := by
  constructor <;> rfl

/-! ### Claim C5 -/

/-- Claim C5, counterexample: with two search fields `a, b`, term `x` and
one filter `b = 5`, on a row matching the search on `a` but failing the
filter, the data query's WHERE list evaluates (under SQL precedence) to
true — `CAST(a)=x OR (CAST(b)=x AND b=5)` — while the claimed parenthesized
combination `(CAST(a)=x OR CAST(b)=x) AND b=5` is false: the search
OR-group is NOT combined as one parenthesized AND-ed unit. -/
theorem search_group_not_parenthesized :
    evalClauses envSearchA (dataWhereClauses (some [("a"), ("b")]) ("x") filterB5) = true ∧
    specSearchFilterPredicate envSearchA [("a"), ("b")] ("x") filterB5 = false := by
  constructor <;> rfl

/-- Claim C5 (amended): when `settings.search_fields` is non-empty and a
search term is supplied, each search field contributes one OR-connected
clause of exact CHAR-cast equality with the search term (not a substring
match), appended to the top-level WHERE list before the filter conjuncts;
under SQL precedence the resulting predicate is
`s1 OR ... OR s(n-1) OR (sn AND f1 AND ... AND fm)` — only the LAST search
clause groups with the AND-combined filters (so the disjunction coincides
with the spec's parenthesized form exactly when there is a single search
field or no filters). -/
theorem search_or_sql_precedence (env : Cond → Bool) (v : String) (sfl : List String)
    (lastF : String) (fs : List FilterObject) (hv : v ≠ "") :
    applySearch [] (some (sfl ++ [lastF])) v =
      (sfl ++ [lastF]).map (fun field => (WhereConn.wOr, Cond.castCharEq field v)) ∧
    evalClauses env (dataWhereClauses (some (sfl ++ [lastF])) v fs) =
      (sfl.any (fun f => env (Cond.castCharEq f v)) ||
        (env (Cond.castCharEq lastF v) && fs.all (fun f => env (filterCond f)))) := by
  have hne : sfl ++ [lastF] ≠ [] := by simp
  have h1 := applySearch_eq_map [] (sfl ++ [lastF]) v hv hne
  simp only [List.nil_append] at h1
  refine ⟨h1, ?_⟩
  unfold dataWhereClauses
  rw [h1, applyFilters_eq_map]
  exact evalClauses_search_filters env v fs sfl lastF

/-- Claim C5, witness for the amended theorem: concrete instance with
search fields `a, b`, term `x` and the filter `b = 5`. -/
theorem search_or_sql_precedence_witness :
    applySearch [] (some ([("a")] ++ [("b")])) ("x") =
      ([("a")] ++ [("b")]).map (fun field => (WhereConn.wOr, Cond.castCharEq field ("x"))) ∧
    evalClauses envSearchA (dataWhereClauses (some ([("a")] ++ [("b")])) ("x") filterB5) =
      ([("a")].any (fun f => envSearchA (Cond.castCharEq f ("x"))) ||
        (envSearchA (Cond.castCharEq ("b") ("x")) &&
          filterB5.all (fun f => envSearchA (filterCond f)))) :=
  search_or_sql_precedence envSearchA ("x") [("a")] ("b") filterB5 (by decide)

/-! ### Claim C6 -/

/-- Claim C6: `addRowInTable` on a table with NO primary key throws a
TypeError — `primaryColumns[0]` is dereferenced (`primaryKey.column_name`,
line 54) before the `primaryColumns?.length > 0` guard at line 70, so the
intended insert-without-return branch (lines 93-95) is unreachable — while
the auto-increment branch returns the last generated id under the key name
and the non-auto branch echoes the caller-supplied key value. -/
theorem addRowInTable_no_primary_key_throws :
    addRowInTable (fun _ => ("null")) (Value.vNum 7) ("t") [(("a"), Value.vNum 1)]
        plainKeyStructure [] =
      Except.error ("TypeError: Cannot read properties of undefined (reading column_name)") ∧
    addRowInTable (fun _ => ("null")) (Value.vNum 7) ("t") [(("x"), Value.vNum 5)]
        autoIncStructure [⟨("id"), ("int")⟩] =
      Except.ok ([DbOp.insert ("t") [(("x"), Value.vNum 5)], DbOp.selectLastInsertId ("t")],
        some (("id"), some (Value.vNum 7))) ∧
    addRowInTable (fun _ => ("null")) (Value.vNum 7) ("t") [(("id"), Value.vStr ("k"))]
        plainKeyStructure [⟨("id"), ("varchar")⟩] =
      Except.ok ([DbOp.insert ("t") [(("id"), Value.vStr ("k"))]],
        some (("id"), some (Value.vStr ("k")))) := by
  refine ⟨rfl, rfl, rfl⟩

/-! ### Claim C7 -/

/-- Claim C7: a first `getMySqlDriver` call caches and returns the ssh
driver, but a subsequent `configureKnex` for the structurally equal
descriptor stores its newly built knex handle with `Cacher.setDriverCache`
— overwriting the driver-cache entry — so the next `getMySqlDriver` returns
the knex handle, not the ssh driver: the two cached handles are NOT held
independently. -/
theorem configureKnex_overwrites_driver_cache :
    (getMySqlDriver emptyCacher sampleConnConfig 0).2 = Handle.sshDriver 0 ∧
    (getMySqlDriver
        (configureKnex (getMySqlDriver emptyCacher sampleConnConfig 0).1 sampleConnConfig 1).1
        sampleConnConfig 2).2 = Handle.knexHandle 1 := by
  refine ⟨rfl, rfl⟩

/-! ### Claim C8 -/

/-- Claim C8, counterexample: a catalog row with absent
`character_maximum_length` and `column_type = "decimal(0)"` has `0` as the
first run of digits of its column type, yet the code normalizes
`character_maximum_length` to null (the source's second ternary treats the
parsed `0` as falsy), not to that digit run — refuting the claim's
unrestricted "falls back to the first run of digits" rule. -/
theorem max_length_zero_digit_run_counterexample :
    getNumbersFromString ("decimal(0)") = some 0 ∧
    (normalizeStructureElement ⟨("d"), none, ("decimal"), ("decimal(0)"), ("YES"), (""),
        none⟩).character_maximum_length = none ∧
    (normalizeStructureElement ⟨("d"), none, ("decimal"), ("decimal(0)"), ("YES"), (""),
        none⟩).character_maximum_length ≠ some 0 := by
  refine ⟨by decide, by decide, by decide⟩

/-- Claim C8 (amended): `getTableStructure` normalization — a column with
`column_type = enum('a','b','c')` yields `data_type_params = ["a","b","c"]`
(analogously for `set('a','b')`); `extra = "auto_increment"` rewrites
`column_default` to the sentinel; `allow_null` is the boolean
`is_nullable = 'YES'`; and `character_maximum_length`, when absent from the
catalog, falls back to the first run of digits of `column_type` whenever
that run is non-zero (e.g. `varchar(45)` → 45), while a zero digit run
(falsy in the source's ternary) and absent digits both yield null. -/
theorem getTableStructure_normalization (e : RawStructureEl) :
    (e.data_type = ("enum") → e.column_type = enumAbcType →
      (normalizeStructureElement e).data_type_params = some [("a"), ("b"), ("c")]) ∧
    (e.data_type = ("set") → e.column_type = setAbType →
      (normalizeStructureElement e).data_type_params = some [("a"), ("b")]) ∧
    (e.extra = ("auto_increment") →
      (normalizeStructureElement e).column_default = some ("auto_increment")) ∧
    ((normalizeStructureElement e).allow_null = (e.is_nullable == ("YES"))) ∧
    (∀ n : Nat, e.character_maximum_length = none →
      getNumbersFromString e.column_type = some n → n ≠ 0 →
      (normalizeStructureElement e).character_maximum_length = some (Int.ofNat n)) ∧
    (e.character_maximum_length = none → getNumbersFromString e.column_type = some 0 →
      (normalizeStructureElement e).character_maximum_length = none) ∧
    (e.character_maximum_length = none → getNumbersFromString e.column_type = none →
      (normalizeStructureElement e).character_maximum_length = none) := by
  obtain ⟨cn, cd, dt, ct, isn, ex, cml⟩ := e
  refine ⟨?_, ?_, ?_, ?_, ?_, ?_, ?_⟩
  · intro h1 h2
    simp only at h1 h2
    subst h1
    subst h2
    show dataTypeParams ("enum") enumAbcType = some [("a"), ("b"), ("c")]
    decide
  · intro h1 h2
    simp only at h1 h2
    subst h1
    subst h2
    show dataTypeParams ("set") setAbType = some [("a"), ("b")]
    decide
  · intro h1
    simp only at h1
    subst h1
    show normalizedDefault ("auto_increment") cd = some ("auto_increment")
    simp [normalizedDefault]
  · rfl
  · intro n h1 h2 h3
    simp only at h1 h2
    subst h1
    show fallbackLength ct = some (Int.ofNat n)
    unfold fallbackLength
    rw [h2]
    have hn : (n != 0) = true := by simpa using h3
    simp [hn]
  · intro h1 h2
    simp only at h1 h2
    subst h1
    show fallbackLength ct = none
    unfold fallbackLength
    rw [h2]
    rfl
  · intro h1 h2
    simp only at h1 h2
    subst h1
    show fallbackLength ct = none
    unfold fallbackLength
    rw [h2]

/-- Claim C8, witness: concrete catalog rows exercising the enum branch,
the auto-increment rewrite and the non-zero digit-run fallback. -/
theorem getTableStructure_normalization_witness :
    (normalizeStructureElement ⟨("col"), none, ("enum"), enumAbcType, ("YES"), (""),
        none⟩).data_type_params = some [("a"), ("b"), ("c")] ∧
    (normalizeStructureElement ⟨("id"), none, ("int"), ("int(11)"), ("NO"),
        ("auto_increment"), some 11⟩).column_default = some ("auto_increment") ∧
    (normalizeStructureElement ⟨("name"), none, ("varchar"), ("varchar(45)"), ("YES"), (""),
        none⟩).character_maximum_length = some 45 :=
  ⟨(getTableStructure_normalization ⟨("col"), none, ("enum"), enumAbcType, ("YES"), (""),
      none⟩).1 rfl rfl,
   (getTableStructure_normalization ⟨("id"), none, ("int"), ("int(11)"), ("NO"),
      ("auto_increment"), some 11⟩).2.2.1 rfl,
   (getTableStructure_normalization ⟨("name"), none, ("varchar"), ("varchar(45)"), ("YES"),
      (""), none⟩).2.2.2.2.1 45 rfl (by decide) (by decide)⟩

/-! ### Claim C9 -/

/-- Claim C9: `findAvaliableFields` with
`settings = {list_fields: ["a","b"], excluded_fields: ["b"]}` splices the
excluded entry out of the caller's own `list_fields` array (the local
`availableFields` aliases it), so after the call the settings object has
`list_fields = ["a"]` — the settings are NOT read-only to this core. -/
theorem findAvaliableFields_mutates_list_fields :
    (findAvaliableFields [("a"), ("b"), ("c")] sampleSettings).2.list_fields = some [("a")] ∧
    sampleSettings.list_fields = some [("a"), ("b")] ∧
    (findAvaliableFields [("a"), ("b"), ("c")] sampleSettings).2 ≠ sampleSettings := by
  refine ⟨rfl, rfl, by decide⟩

/-! ### Claim C10 -/

/-- Claim C10: both `addRowInTable` and `updateRowInTable` mutate the
caller's row object in place before issuing the statement — afterwards the
caller's own reference holds, entry by entry, the old row with every field
of a `json`-typed column replaced by the string serialization of its old
value, all other entries and all other heap objects being untouched. -/
theorem json_fields_serialized_in_place (stringify : Value → String) (lastInsertId : Value)
    (tableName : String) (h : Heap) (rowRef : Nat) (tableStructure : List StructureEl)
    (primaryColumns : List PrimaryCol) (primaryKey : RowObj) :
    ((addRowInTableH stringify lastInsertId tableName h rowRef tableStructure
        primaryColumns).1 rowRef =
      serializeRowJsonFields stringify (jsonColumnNames tableStructure) (h rowRef)) ∧
    ((updateRowInTableH stringify tableName h rowRef primaryKey tableStructure).1 rowRef =
      serializeRowJsonFields stringify (jsonColumnNames tableStructure) (h rowRef)) ∧
    (∀ i : Nat,
      ((addRowInTableH stringify lastInsertId tableName h rowRef tableStructure
          primaryColumns).1 rowRef)[i]? =
        ((h rowRef)[i]?).map (fun kv =>
          if (jsonColumnNames tableStructure).contains kv.1 then
            (kv.1, Value.vStr (stringify kv.2))
          else kv)) ∧
    (∀ r : Nat, r ≠ rowRef →
      ((addRowInTableH stringify lastInsertId tableName h rowRef tableStructure
          primaryColumns).1 r = h r ∧
        (updateRowInTableH stringify tableName h rowRef primaryKey tableStructure).1 r = h r)) := by
  refine ⟨?_, ?_, ?_, ?_⟩
  · simp [addRowInTableH, writeHeap]
  · simp [updateRowInTableH, writeHeap]
  · intro i
    simp [addRowInTableH, writeHeap, serializeRowJsonFields]
  · intro r hr
    constructor <;> simp [addRowInTableH, updateRowInTableH, writeHeap, hr]

/-- Claim C10, witness: a concrete heap with one row holding a `json`-typed
field; after `addRowInTable` the caller's reference holds the stringified
value and an unrelated reference is untouched. -/
theorem json_fields_serialized_in_place_witness :
    ((addRowInTableH (fun _ => ("J")) Value.vNull ("t") (fun _ => [(("j"), Value.vNum 2)]) 0
        jsonColStructure []).1 0 =
      serializeRowJsonFields (fun _ => ("J")) (jsonColumnNames jsonColStructure)
        [(("j"), Value.vNum 2)]) ∧
    ((addRowInTableH (fun _ => ("J")) Value.vNull ("t") (fun _ => [(("j"), Value.vNum 2)]) 0
        jsonColStructure []).1 5 = [(("j"), Value.vNum 2)]) :=
  ⟨(json_fields_serialized_in_place (fun _ => ("J")) Value.vNull ("t")
      (fun _ => [(("j"), Value.vNum 2)]) 0 jsonColStructure [] []).1,
   ((json_fields_serialized_in_place (fun _ => ("J")) Value.vNull ("t")
      (fun _ => [(("j"), Value.vNum 2)]) 0 jsonColStructure [] []).2.2.2 5 (by decide)).1⟩

end DaoSshMysql
